import Mathlib

/-!
Shallow embedding of the Facedancer control-transfer dispatch engine and
device state machine, translated from `facedancer/future/device.py`.

Machine bytes are modelled as `Nat` with explicit `% 256`; Python
`x >> 8` and `x & 0xff` on non-negative ints are `x / 256` and `x % 256`.
Calls into the hardware backend (and the terminal actions a control
request performs through its device back-reference) are recorded as an
explicit trace of `BackendOp` values, in the order Python performs them.
Fallible operations (Python `KeyError` / `AttributeError`) return
`Option` / `Except`.
-/

namespace Facedancer

/-- Modelled from the spec: `USBDirection.OUT` from `types.py` (absent from
`src/`); the wire encoding of the OUT direction bit. -/
def USBDirection_OUT : Nat := 0

/-- Modelled from the spec: `USBDirection.IN` from `types.py` (absent from
`src/`); the wire encoding of the IN direction bit. -/
def USBDirection_IN : Nat := 1

/-- Modelled from the spec: `USBControlRequest` from `request.py` (absent
from `src/`): the ephemeral value object decoded from the 8-byte setup
packet: direction, request type, recipient, request number, the 16-bit
value/index fields, the requested length, and any OUT-direction payload. -/
structure USBControlRequest where
  direction : Nat
  type : Nat
  recipient : Nat
  number : Nat
  value : Nat
  index : Nat
  length : Nat
  data : List Nat
deriving DecidableEq

/-- High byte of the 16-bit value field (`request.value_high`). -/
def USBControlRequest.value_high (r : USBControlRequest) : Nat := r.value / 256

/-- Low byte of the 16-bit value field (`request.value_low`). -/
def USBControlRequest.value_low (r : USBControlRequest) : Nat := r.value % 256

/-- Low byte of the 16-bit index field (`request.index_low`). -/
def USBControlRequest.index_low (r : USBControlRequest) : Nat := r.index % 256

/-- Modelled from the spec: `USBEndpoint` from `endpoint.py` (absent from
`src/`): endpoint number, direction, and negotiated max packet size. -/
structure USBEndpoint where
  number : Nat
  direction : Nat
  max_packet_size : Nat
deriving DecidableEq

/-- Modelled from the spec: `USBConfiguration` from `configuration.py`
(absent from `src/`): configuration number (1-based), owned endpoints, and
the configuration descriptor bytes its own `get_descriptor` produces
(abstracted here as stored bytes). -/
structure USBConfiguration where
  number : Nat
  endpoints : List USBEndpoint
  descriptor : List Nat
deriving DecidableEq

/-- Modelled from the spec: `USBConfiguration.get_descriptor` (absent from
`src/`) returns the descriptor this configuration produces. -/
def USBConfiguration.get_descriptor (c : USBConfiguration) : List Nat :=
  c.descriptor

/-- Modelled from the spec: `USBConfiguration.get_endpoint` (absent from
`src/`) finds the owned endpoint with the given (number, direction)
identity key, if any. -/
def USBConfiguration.get_endpoint (c : USBConfiguration)
    (endpoint_number : Nat) (direction : Nat) : Option USBEndpoint :=
  c.endpoints.find? fun e => e.number == endpoint_number && e.direction == direction

/-- Modelled from the spec: `StringDescriptorManager` from `descriptor.py`
(absent from `src/`): maps each distinct string to a stable 1-based index
in first-seen order (index 0 is reserved for the language-ID descriptor). -/
structure StringDescriptorManager where
  strings : List String
deriving DecidableEq

/-- Modelled from the spec: `StringDescriptorManager.get_index` returns the
stable index for a string, assigning the next fresh 1-based index on first
sight; returns the (possibly grown) manager alongside the index. -/
def StringDescriptorManager.get_index (m : StringDescriptorManager)
    (s : String) : StringDescriptorManager × Nat :=
  match m.strings.indexOf? s with
  | some i => (m, i + 1)
  | none => (⟨m.strings ++ [s]⟩, m.strings.length + 1)

/-- A descriptor producer, per `descriptors : Dict[int, Union[bytes, callable]]`:
either a concrete byte buffer or an index-parameterized generator that may
itself yield another producer (a chain). -/
inductive DescriptorProducer where
  | bytes (data : List Nat)
  | gen (f : Nat → DescriptorProducer)

/-- The `while callable(response): response = response(descriptor_index)`
loop of `handle_generic_get_descriptor_request`: repeatedly invoke a
producer with the same descriptor index until concrete bytes result. -/
def resolveProducer : DescriptorProducer → Nat → List Nat
  | .bytes d, _ => d
  | .gen f, descriptor_index => resolveProducer (f descriptor_index) descriptor_index

/-- One observable action on the backend adapter (or a terminal action the
request performs through its device back-reference: `ack` and `reply` are
modelled from the spec since `request.py` is absent from `src/`). -/
inductive BackendOp where
  | connect
  | disconnect
  | reset
  | serviceIrqs
  | sendOnEndpoint (number : Nat) (data : List Nat) (blocking : Bool)
  | stallEndpoint (number : Nat) (direction : Nat)
  | setAddress (address : Nat) (defer : Bool)
  | configured (configuration : Option USBConfiguration)
  | ack (blocking : Bool)
  | reply (data : List Nat)
deriving DecidableEq

/-- The mutable state of a `USBBaseDevice` instance: the dataclass fields
plus the fields established in `__post_init__` (address 0, no
configuration, string manager, suggestion store). -/
structure DeviceState where
  device_class : Nat
  device_subclass : Nat
  protocol_revision_number : Nat
  max_packet_size_ep0 : Nat
  vendor_id : Nat
  product_id : Nat
  manufacturer_string : String
  product_string : String
  serial_number_string : String
  supported_languages : List Nat
  device_revision : Nat
  usb_spec_version : Nat
  descriptors : List (Nat × DescriptorProducer)
  configurations : List (Nat × USBConfiguration)
  address : Nat
  configuration : Option USBConfiguration
  strings : StringDescriptorManager
  suggested_requests : List (Nat × Nat × Nat × Nat)
  suggested_request_metadata : List ((Nat × Nat × Nat × Nat) × (Nat × List Nat))

/-- `USBBaseDevice.set_address`: update the device's own address and inform
the backend, forwarding the `defer` flag unchanged. -/
def set_address (st : DeviceState) (address : Nat) (defer : Bool) :
    DeviceState × List BackendOp :=
  ({ st with address := address }, [BackendOp.setAddress address defer])

/-- `USBDevice.handle_set_address_request`: acknowledge the transaction
(blocking), then apply the address via `set_address(request.value)` — the
Python call site passes no `defer` argument, so `defer` takes its default
value `False`. -/
def handle_set_address_request (st : DeviceState) (request : USBControlRequest) :
    DeviceState × List BackendOp :=
  let applied := set_address st request.value false
  (applied.1, BackendOp.ack true :: applied.2)

/-- `USBDevice.handle_set_configuration_request`: value 0 drops the active
configuration and acknowledges; a registered value swaps the configuration
in and acknowledges; an unknown value raises `KeyError` before the
assignment, which is caught and turned into a stall, leaving the prior
configuration in place. In every case the backend is then notified of the
(possibly absent) resulting configuration. -/
def handle_set_configuration_request (st : DeviceState) (request : USBControlRequest) :
    DeviceState × List BackendOp :=
  let step : DeviceState × List BackendOp :=
    if request.value == 0 then
      ({ st with configuration := none }, [BackendOp.ack false])
    else
      match st.configurations.lookup request.value with
      | some configuration =>
          ({ st with configuration := some configuration }, [BackendOp.ack false])
      | none => (st, [BackendOp.stallEndpoint 0 USBDirection_OUT])
  (step.1, step.2 ++ [BackendOp.configured step.1.configuration])

/-- `USBBaseDevice.get_descriptor`: the fixed 18-byte device descriptor.
The three string fields are resolved through the string manager in
source order (manufacturer, product, serial), threading its state. -/
def get_descriptor (st : DeviceState) : DeviceState × List Nat :=
  let r1 := st.strings.get_index st.manufacturer_string
  let r2 := r1.1.get_index st.product_string
  let r3 := r2.1.get_index st.serial_number_string
  ({ st with strings := r3.1 },
   [18, 1,
    st.usb_spec_version / 256 % 256,
    st.usb_spec_version % 256,
    DeviceState.device_class st,
    DeviceState.device_subclass st,
    st.protocol_revision_number,
    st.max_packet_size_ep0,
    st.vendor_id % 256,
    st.vendor_id / 256 % 256,
    st.product_id % 256,
    st.product_id / 256 % 256,
    st.device_revision / 256 % 256,
    st.device_revision % 256,
    r1.2, r2.2, r3.2,
    st.configurations.length])

/-- `USBBaseDevice.get_configuration_descriptor`: delegate to the
configuration stored under key `index + 1` (a missing key is a Python
`KeyError`, modelled as `none`). -/
def get_configuration_descriptor (st : DeviceState) (index : Nat) :
    Option (List Nat) :=
  (st.configurations.lookup (index + 1)).map USBConfiguration.get_descriptor

/-- `USBBaseDevice.handle_generic_get_descriptor_request`: look the
descriptor type up in the descriptors map (`.get` yields `None` when
absent, which is falsy), resolve producer chains by repeated invocation,
stall on a falsy result, and otherwise reply with the first
`min(request.length, len(response))` bytes. -/
def handle_generic_get_descriptor_request (st : DeviceState)
    (request : USBControlRequest) : List BackendOp :=
  let descriptor_type := request.value_high
  let descriptor_index := request.value_low
  match st.descriptors.lookup descriptor_type with
  | none => [BackendOp.stallEndpoint 0 USBDirection_OUT]
  | some producer =>
    let response := resolveProducer producer descriptor_index
    if response.isEmpty then [BackendOp.stallEndpoint 0 USBDirection_OUT]
    else
      let response_length := min request.length response.length
      [BackendOp.reply (response.take response_length)]

/-- The `while data:` loop of `_send_in_packets`: slice off the first
`packet_size` bytes and submit them, until the buffer is exhausted. The
fuel argument (instantiated with `data.length`) makes the loop structurally
terminating; it never runs out when `packet_size > 0`. -/
def sendPacketsLoop (packet_size : Nat) : Nat → List Nat → List (List Nat)
  | _, [] => []
  | 0, _ :: _ => []
  | fuel + 1, b :: rest =>
      (b :: rest).take packet_size ::
        sendPacketsLoop packet_size fuel ((b :: rest).drop packet_size)

/-- `USBBaseDevice._send_in_packets`: an empty payload is submitted as a
single zero-length packet; otherwise the payload is submitted one
`packet_size`-byte chunk at a time. -/
def send_in_packets (endpoint_number : Nat) (data : List Nat)
    (packet_size : Nat) (blocking : Bool) : List BackendOp :=
  if data.isEmpty then
    [BackendOp.sendOnEndpoint endpoint_number [] blocking]
  else
    (sendPacketsLoop packet_size data.length data).map
      fun packet => BackendOp.sendOnEndpoint endpoint_number packet blocking

/-- Modelled from the spec: `USBEndpoint.send` (absent from `src/`)
delegates to the device's `_send_in_packets` with the endpoint's own
number and negotiated max packet size. -/
def USBEndpoint.send (e : USBEndpoint) (data : List Nat) (blocking : Bool) :
    List BackendOp :=
  send_in_packets e.number data e.max_packet_size blocking

/-- `USBBaseDevice.send`: endpoint 0 is forwarded to the backend directly,
un-chunked (backends packetize EP0 themselves). Otherwise, only when a
configuration is active, the configuration's IN endpoint is looked up and
its `send` invoked; if the lookup yields `None`, Python would raise an
`AttributeError` on `None.send`. With no active configuration the call
falls off the `elif` and does nothing. -/
def send (st : DeviceState) (endpoint_number : Nat) (data : List Nat)
    (blocking : Bool) : Except String (DeviceState × List BackendOp) :=
  if endpoint_number == 0 then
    Except.ok (st, [BackendOp.sendOnEndpoint 0 data blocking])
  else
    match st.configuration with
    | some configuration =>
      match configuration.get_endpoint endpoint_number USBDirection_IN with
      | some endpoint => Except.ok (st, endpoint.send data blocking)
      | none => Except.error "AttributeError: NoneType has no attribute send"
    | none => Except.ok (st, [])

/-- Modelled from the spec: a `HandlerBinding` from the Handler Registry
(`request.py` is absent from `src/`): the matching key, each field either
a wildcard (`none`) or a required value, paired with the bound handler. -/
structure HandlerBinding where
  req_type : Option Nat
  recipient : Option Nat
  direction : Option Nat
  number : Option Nat
  run : USBControlRequest → DeviceState → DeviceState × List BackendOp

/-- Modelled from the spec: a binding matches a request iff every
non-wildcard field of the binding equals the corresponding request field. -/
def matchesRequest (b : HandlerBinding) (r : USBControlRequest) : Bool :=
  b.req_type.all (fun t => t == r.type) &&
  b.recipient.all (fun t => t == r.recipient) &&
  b.direction.all (fun t => t == r.direction) &&
  b.number.all (fun t => t == r.number)

/-- Modelled from the spec: registry resolution — the first registered
matching binding wins. -/
def resolve (bindings : List HandlerBinding) (r : USBControlRequest) :
    Option HandlerBinding :=
  bindings.find? fun b => matchesRequest b r

/-- Modelled from the spec: `USBRequestHandler.handle_request` (`request.py`
is absent from `src/`): walk the hierarchy levels depth-first (the device's
own registry, then the registries of its current subordinates), invoking
the first match; `none` means no level claimed the request. -/
def superHandleRequest : List (List HandlerBinding) → USBControlRequest →
    DeviceState → Option (DeviceState × List BackendOp)
  | [], _, _ => none
  | bindings :: rest, r, st =>
    match resolve bindings r with
    | some b => some (b.run r st)
    | none => superHandleRequest rest r st

/-- The suggestion-summary tuple of `_add_request_suggestion`:
`(request.direction, request.type, request.recipient, request.number)`. -/
def request_signature (r : USBControlRequest) : Nat × Nat × Nat × Nat :=
  (r.direction, r.type, r.recipient, r.number)

/-- Python dict assignment `d[k] = v` on an association list: replace the
existing entry for the key, else append. -/
def setKey (k : Nat × Nat × Nat × Nat) (v : Nat × List Nat) :
    List ((Nat × Nat × Nat × Nat) × (Nat × List Nat)) →
    List ((Nat × Nat × Nat × Nat) × (Nat × List Nat))
  | [] => [(k, v)]
  | (k2, v2) :: rest =>
      if k2 == k then (k, v) :: rest else (k2, v2) :: setKey k v rest

/-- `USBBaseDevice._add_request_suggestion`: add the request's signature to
the suggestion set (a Python `set`, so adding a present element changes
nothing) and store the latest length/data metadata under that signature. -/
def add_request_suggestion (st : DeviceState) (r : USBControlRequest) :
    DeviceState :=
  let suggestion_summary := request_signature r
  { st with
    suggested_requests :=
      if suggestion_summary ∈ st.suggested_requests then st.suggested_requests
      else suggestion_summary :: st.suggested_requests,
    suggested_request_metadata :=
      setKey suggestion_summary (r.length, r.data) st.suggested_request_metadata }

/-- `USBBaseDevice.handle_request`: delegate to the hierarchy walk; when no
handler was found, record a suggestion and stall endpoint 0 (the device
`stall()` default: endpoint 0, direction OUT). The boolean is the
`handled` result. -/
def handle_request (levels : List (List HandlerBinding)) (st : DeviceState)
    (r : USBControlRequest) : DeviceState × List BackendOp × Bool :=
  match superHandleRequest levels r st with
  | some (st2, ops) => (st2, ops, true)
  | none =>
      (add_request_suggestion st r,
       [BackendOp.stallEndpoint 0 USBDirection_OUT], false)

/-- Recognizer for a stall of endpoint 0 (either direction). -/
def isEp0Stall : BackendOp → Bool
  | BackendOp.stallEndpoint 0 _ => true
  | _ => false

/-- Recognizer for the backend `disconnect()` call. -/
def isDisconnect : BackendOp → Bool
  | BackendOp.disconnect => true
  | _ => false

/-- How the emulation loop started by `emulate()` terminated: a normal
return of `run_with`, a `KeyboardInterrupt`, or any other exception. -/
inductive RunExit where
  | normal
  | keyboardInterrupt
  | otherError
deriving DecidableEq

/-- `USBBaseDevice.emulate`: connect, run (`runOps` abstracts whatever
backend calls the run loop performed before terminating with `exit`),
catch `KeyboardInterrupt` (swallowed by `pass`), and in every case run the
`finally` block, which disconnects the backend; any other exception then
propagates. Returns the ordered backend trace and the propagated
exception, if any. -/
def emulate (runOps : List BackendOp) (exit : RunExit) :
    List BackendOp × Option RunExit :=
  let before := BackendOp.connect :: runOps
  match exit with
  | RunExit.normal => (before ++ [BackendOp.disconnect], none)
  | RunExit.keyboardInterrupt => (before ++ [BackendOp.disconnect], none)
  | RunExit.otherError => (before ++ [BackendOp.disconnect], some RunExit.otherError)

/-!
## Concrete fixtures

A concrete device mirroring the dataclass defaults, with two registered
configurations, used to instantiate the theorems below.
-/

/-- A concrete configuration with number 1. -/
def config1 : USBConfiguration :=
  ⟨1, [⟨1, USBDirection_IN, 64⟩, ⟨1, USBDirection_OUT, 64⟩], [9, 2, 32, 0]⟩

/-- A concrete configuration with number 2. -/
def config2 : USBConfiguration := ⟨2, [], [9, 2, 18, 0, 2]⟩

/-- A concrete device state: the dataclass defaults of `USBBaseDevice`
right after `__post_init__`, with configurations 1 and 2 registered. -/
def st0 : DeviceState :=
  { device_class := 0
    device_subclass := 0
    protocol_revision_number := 0
    max_packet_size_ep0 := 64
    vendor_id := 0x610b
    product_id := 0x4653
    manufacturer_string := "FaceDancer"
    product_string := "Generic USB Device"
    serial_number_string := "S/N 3420E"
    supported_languages := [0x0409]
    device_revision := 0
    usb_spec_version := 0x0002
    descriptors := []
    configurations := [(1, config1), (2, config2)]
    address := 0
    configuration := none
    strings := ⟨[]⟩
    suggested_requests := []
    suggested_request_metadata := [] }

/-- `st0` after a successful SET_CONFIGURATION(1): a Configured state. -/
def stConfigured : DeviceState := { st0 with configuration := some config1 }

/-- A concrete SET_ADDRESS(5) setup request (standard, to-device, OUT). -/
def setAddressReq : USBControlRequest := ⟨USBDirection_OUT, 0, 0, 5, 5, 0, 0, []⟩

/-- A concrete SET_CONFIGURATION(7) setup request, 7 being unregistered. -/
def setConfigReq7 : USBControlRequest := ⟨USBDirection_OUT, 0, 0, 9, 7, 0, 0, []⟩

/-- A concrete SET_CONFIGURATION(0) setup request. -/
def setConfigReq0 : USBControlRequest := ⟨USBDirection_OUT, 0, 0, 9, 0, 0, 0, []⟩

/-!
## Shared helper lemmas
-/

/-- A successful association-list lookup exhibits a member with that key. -/
theorem lookup_mem {β : Type} (k : Nat) (v : β) :
    ∀ l : List (Nat × β), List.lookup k l = some v → (k, v) ∈ l := by
  intro l
  induction l with
  | nil => simp [List.lookup]
  | cons p rest ih =>
    cases p with
    | mk k2 v2 =>
      intro h
      simp only [List.lookup] at h
      by_cases hk : k = k2
      · subst hk
        simp at h
        subst h
        exact List.mem_cons_self _ _
      · have hb : (k == k2) = false := beq_false_of_ne hk
        rw [hb] at h
        exact List.mem_cons_of_mem _ (ih h)

/-!
## Claims
-/

/-- Claim C1, counterexample: handling SET_ADDRESS(5) from the unaddressed
state produces the trace `[ack (blocking), set_address 5 (defer := false)]`;
the backend `set_address` is never invoked with the defer flag true, because
the Python call site `self.set_address(request.value)` leaves `defer` at its
default `False`. -/
theorem c1_counterexample :
    (handle_set_address_request st0 setAddressReq).2 =
      [BackendOp.ack true, BackendOp.setAddress 5 false] ∧
    BackendOp.setAddress 5 true ∉ (handle_set_address_request st0 setAddressReq).2 := by
  constructor
  · rfl
  · decide

/-- Claim C1 (amended): when the device handles a SET_ADDRESS request with
value `addr`, it acknowledges the transaction (blocking) before the address
change is applied, after which the device's address field equals `addr`;
during that same transaction the backend's `set_address` is called with the
defer flag set to false, the acknowledgement having already completed. -/
theorem c1_set_address_ack_then_apply (st : DeviceState)
    (request : USBControlRequest) :
    handle_set_address_request st request =
      ({ st with address := request.value },
       [BackendOp.ack true, BackendOp.setAddress request.value false]) := rfl

/-- Claim C3: a SET_CONFIGURATION request with a non-zero value that is not
a key of the configurations map stalls, leaves the whole device state (in
particular the active configuration) exactly as it was, and then notifies
the backend with that unchanged configuration. -/
theorem c3_set_configuration_unknown_stalls (st : DeviceState)
    (request : USBControlRequest) (hnz : request.value ≠ 0)
    (hmiss : List.lookup request.value st.configurations = none) :
    handle_set_configuration_request st request =
      (st, [BackendOp.stallEndpoint 0 USBDirection_OUT,
            BackendOp.configured st.configuration]) := by
  simp [handle_set_configuration_request, hmiss, hnz]

/-- Claim C3 witness: SET_CONFIGURATION(7) against the concrete device
(whose registered configurations are 1 and 2) stalls and reports the
unchanged (absent) configuration to the backend. -/
theorem c3_witness :
    List.lookup (7 : Nat) st0.configurations = none ∧
    handle_set_configuration_request st0 setConfigReq7 =
      (st0, [BackendOp.stallEndpoint 0 USBDirection_OUT,
             BackendOp.configured none]) := by
  refine ⟨rfl, ?_⟩
  exact c3_set_configuration_unknown_stalls st0 setConfigReq7 (by decide) rfl

/-- Claim C6: `get_configuration_descriptor` with index `i` returns the
descriptor produced by the configuration registered under key `i + 1`,
whose configuration number is `i + 1` (keys match configuration numbers,
as `add_configuration` stores each configuration under its own number). -/
theorem c6_configuration_index_offset (st : DeviceState) (index : Nat)
    (c : USBConfiguration)
    (hwf : ∀ p ∈ st.configurations, (p.2 : USBConfiguration).number = p.1)
    (h : List.lookup (index + 1) st.configurations = some c) :
    get_configuration_descriptor st index = some c.get_descriptor ∧
    c.number = index + 1 := by
  constructor
  · simp [get_configuration_descriptor, h]
  · exact hwf _ (lookup_mem _ _ _ h)

/-- Claim C6 witness: on the concrete device, descriptor index 1 resolves
to configuration number 2. -/
theorem c6_witness :
    get_configuration_descriptor st0 1 = some config2.get_descriptor ∧
    config2.number = 2 :=
  c6_configuration_index_offset st0 1 config2 (by decide) rfl

/-- Claim C8: handling SET_CONFIGURATION with value 0, from any prior
state, sets the active configuration to none, acknowledges, and reports
the deconfiguration to the backend. -/
theorem c8_set_configuration_zero_deconfigures (st : DeviceState)
    (request : USBControlRequest) (h : request.value = 0) :
    handle_set_configuration_request st request =
      ({ st with configuration := none },
       [BackendOp.ack false, BackendOp.configured none]) := by
  simp [handle_set_configuration_request, h]

/-- Claim C8 witness: SET_CONFIGURATION(0) from the Configured state drops
the active configuration and acknowledges. -/
theorem c8_witness :
    handle_set_configuration_request stConfigured setConfigReq0 =
      ({ stConfigured with configuration := none },
       [BackendOp.ack false, BackendOp.configured none]) :=
  c8_set_configuration_zero_deconfigures stConfigured setConfigReq0 rfl

/-- Claim C9: however the emulation loop exits (normal return, keyboard
interrupt, or any other exception), the backend trace produced by
`emulate` contains exactly one `disconnect`, and it is the final call —
the `finally` block runs in every case, before `emulate` returns or the
exception propagates. The hypothesis records that the run loop itself
performs no disconnect (its body only services IRQs). -/
theorem c9_emulate_always_disconnects (runOps : List BackendOp)
    (exit : RunExit) (h : ∀ op ∈ runOps, isDisconnect op = false) :
    ((emulate runOps exit).1.filter isDisconnect).length = 1 ∧
    (emulate runOps exit).1.getLast? = some BackendOp.disconnect := by
  have hfilter : runOps.filter isDisconnect = [] := by
    rw [List.filter_eq_nil_iff]
    intro a ha
    simp [h a ha]
  have hlast : ∀ l : List BackendOp,
      (BackendOp.connect :: (l ++ [BackendOp.disconnect])).getLast? =
        some BackendOp.disconnect := by
    intro l
    rw [← List.cons_append]
    exact List.getLast?_concat _
  cases exit <;>
    constructor <;>
      simp [emulate, List.filter_append, hfilter, isDisconnect, hlast]

/-- Claim C9 witness: a run that serviced IRQs twice and was then
interrupted by the user still disconnects exactly once, as its last
backend call. -/
theorem c9_witness :
    ((emulate [BackendOp.serviceIrqs, BackendOp.serviceIrqs]
        RunExit.keyboardInterrupt).1.filter isDisconnect).length = 1 ∧
    (emulate [BackendOp.serviceIrqs, BackendOp.serviceIrqs]
        RunExit.keyboardInterrupt).1.getLast? = some BackendOp.disconnect :=
  c9_emulate_always_disconnects _ _ (by decide)

/-- Claim C10: `send` on a non-zero endpoint while no configuration is
active returns successfully with an unchanged state and an empty backend
trace — no data submission, no stall, no exception; and `send` on endpoint
0 always forwards the data to the backend directly, un-chunked, whatever
the device state. -/
theorem c10_send_unconfigured_noop (st : DeviceState) (endpoint_number : Nat)
    (data : List Nat) (blocking : Bool) (hn : endpoint_number ≠ 0)
    (hc : st.configuration = none) :
    send st endpoint_number data blocking = Except.ok (st, ([] : List BackendOp)) ∧
    ∀ st2 : DeviceState, send st2 0 data blocking =
      Except.ok (st2, [BackendOp.sendOnEndpoint 0 data blocking]) := by
  constructor
  · simp [send, hn, hc]
  · intro st2
    simp [send]

/-- Claim C10 witness: on the concrete unconfigured device, sending on
endpoint 2 is a silent no-op, while sending on endpoint 0 goes straight
to the backend. -/
theorem c10_witness :
    send st0 2 [1, 2, 3] false = Except.ok (st0, ([] : List BackendOp)) ∧
    send st0 0 [1, 2, 3] false =
      Except.ok (st0, [BackendOp.sendOnEndpoint 0 [1, 2, 3] false]) := by
  have h := c10_send_unconfigured_noop st0 2 [1, 2, 3] false (by decide) rfl
  exact ⟨h.1, h.2 st0⟩

/-- The fields read back from an 18-byte device descriptor, following the
USB 2.0 layout as the claim states it: single bytes for length, type,
class, subclass, protocol, EP0 max packet size, the three string indices
and the configuration count; little-endian byte pairs for vendor and
product IDs; byte pairs for the spec version and device revision as the
source emits them (high byte first). This decoder is written from the
claim, to be compared with `get_descriptor`. -/
structure DeviceDescriptorDecoded where
  bLength : Nat
  bDescriptorType : Nat
  bcdUSB : Nat
  classByte : Nat
  subclassByte : Nat
  protocolByte : Nat
  maxPacketSize0 : Nat
  idVendor : Nat
  idProduct : Nat
  bcdDevice : Nat
  iManufacturer : Nat
  iProduct : Nat
  iSerialNumber : Nat
  bNumConfigurations : Nat
deriving DecidableEq

/-- Decode an 18-byte device descriptor per the claimed layout. -/
def decode_device_descriptor (d : List Nat) : DeviceDescriptorDecoded :=
  { bLength := d.getD 0 0
    bDescriptorType := d.getD 1 0
    bcdUSB := d.getD 2 0 * 256 + d.getD 3 0
    classByte := d.getD 4 0
    subclassByte := d.getD 5 0
    protocolByte := d.getD 6 0
    maxPacketSize0 := d.getD 7 0
    idVendor := d.getD 8 0 + 256 * d.getD 9 0
    idProduct := d.getD 10 0 + 256 * d.getD 11 0
    bcdDevice := d.getD 12 0 * 256 + d.getD 13 0
    iManufacturer := d.getD 14 0
    iProduct := d.getD 15 0
    iSerialNumber := d.getD 16 0
    bNumConfigurations := d.getD 17 0 }

/-- Claim C2: `get_descriptor` returns exactly 18 bytes, and decoding them
per the device-descriptor layout yields back the configured class,
subclass, protocol, EP0 max packet size, vendor and product IDs, device
revision, USB spec version, and configuration count, whenever those fields
fit their wire width (single-byte fields below 256, two-byte fields below
65536 — larger values would make the Python `bytearray` constructor raise). -/
theorem c2_device_descriptor_roundtrip (st : DeviceState)
    (hcl : DeviceState.device_class st < 256)
    (hsub : DeviceState.device_subclass st < 256)
    (hproto : st.protocol_revision_number < 256)
    (hmps : st.max_packet_size_ep0 < 256)
    (hven : st.vendor_id < 65536)
    (hprod : st.product_id < 65536)
    (hrev : st.device_revision < 65536)
    (hspec : st.usb_spec_version < 65536)
    (hnum : st.configurations.length < 256) :
    (get_descriptor st).2.length = 18 ∧
    (decode_device_descriptor (get_descriptor st).2).bLength = 18 ∧
    (decode_device_descriptor (get_descriptor st).2).bDescriptorType = 1 ∧
    (decode_device_descriptor (get_descriptor st).2).bcdUSB = st.usb_spec_version ∧
    (decode_device_descriptor (get_descriptor st).2).classByte = DeviceState.device_class st ∧
    (decode_device_descriptor (get_descriptor st).2).subclassByte = DeviceState.device_subclass st ∧
    (decode_device_descriptor (get_descriptor st).2).protocolByte = st.protocol_revision_number ∧
    (decode_device_descriptor (get_descriptor st).2).maxPacketSize0 = st.max_packet_size_ep0 ∧
    (decode_device_descriptor (get_descriptor st).2).idVendor = st.vendor_id ∧
    (decode_device_descriptor (get_descriptor st).2).idProduct = st.product_id ∧
    (decode_device_descriptor (get_descriptor st).2).bcdDevice = st.device_revision ∧
    (decode_device_descriptor (get_descriptor st).2).bNumConfigurations = st.configurations.length := by
  refine ⟨rfl, rfl, rfl, ?_, rfl, rfl, rfl, rfl, ?_, ?_, ?_, rfl⟩
  · show st.usb_spec_version / 256 % 256 * 256 + st.usb_spec_version % 256 =
      st.usb_spec_version
    omega
  · show st.vendor_id % 256 + 256 * (st.vendor_id / 256 % 256) = st.vendor_id
    omega
  · show st.product_id % 256 + 256 * (st.product_id / 256 % 256) = st.product_id
    omega
  · show st.device_revision / 256 % 256 * 256 + st.device_revision % 256 =
      st.device_revision
    omega

/-- Claim C2 witness: the concrete default device round-trips to its
configured values (vendor 0x610b, product 0x4653, spec version 0x0002,
EP0 max packet size 64, two configurations). -/
theorem c2_witness :
    (get_descriptor st0).2.length = 18 ∧
    (decode_device_descriptor (get_descriptor st0).2).bLength = 18 ∧
    (decode_device_descriptor (get_descriptor st0).2).bDescriptorType = 1 ∧
    (decode_device_descriptor (get_descriptor st0).2).bcdUSB = 0x0002 ∧
    (decode_device_descriptor (get_descriptor st0).2).classByte = 0 ∧
    (decode_device_descriptor (get_descriptor st0).2).subclassByte = 0 ∧
    (decode_device_descriptor (get_descriptor st0).2).protocolByte = 0 ∧
    (decode_device_descriptor (get_descriptor st0).2).maxPacketSize0 = 64 ∧
    (decode_device_descriptor (get_descriptor st0).2).idVendor = 0x610b ∧
    (decode_device_descriptor (get_descriptor st0).2).idProduct = 0x4653 ∧
    (decode_device_descriptor (get_descriptor st0).2).bcdDevice = 0 ∧
    (decode_device_descriptor (get_descriptor st0).2).bNumConfigurations = 2 :=
  c2_device_descriptor_roundtrip st0 (by decide) (by decide) (by decide)
    (by decide) (by decide) (by decide) (by decide) (by decide) (by decide)

/-- Claim C7: the generic GET_DESCRIPTOR handler stalls when the requested
descriptor type is absent from the descriptors map or when the resolved
producer yields an empty result; otherwise it replies with exactly
`min(request.length, descriptor_length)` bytes, which are a prefix of the
descriptor; and producer chains are resolved by repeated invocation with
the same descriptor index. -/
theorem c7_generic_get_descriptor (st : DeviceState)
    (request : USBControlRequest) :
    (List.lookup request.value_high st.descriptors = none →
      handle_generic_get_descriptor_request st request =
        [BackendOp.stallEndpoint 0 USBDirection_OUT]) ∧
    (∀ producer, List.lookup request.value_high st.descriptors = some producer →
      (resolveProducer producer request.value_low = [] →
        handle_generic_get_descriptor_request st request =
          [BackendOp.stallEndpoint 0 USBDirection_OUT]) ∧
      (resolveProducer producer request.value_low ≠ [] →
        handle_generic_get_descriptor_request st request =
          [BackendOp.reply ((resolveProducer producer request.value_low).take
            (min request.length (resolveProducer producer request.value_low).length))] ∧
        ((resolveProducer producer request.value_low).take
            (min request.length (resolveProducer producer request.value_low).length)).length =
          min request.length (resolveProducer producer request.value_low).length ∧
        ∃ rest,
          (resolveProducer producer request.value_low).take
              (min request.length (resolveProducer producer request.value_low).length) ++ rest =
            resolveProducer producer request.value_low)) ∧
    (∀ f i, resolveProducer (DescriptorProducer.gen f) i = resolveProducer (f i) i) := by
  refine ⟨?_, ?_, ?_⟩
  · intro h
    simp [handle_generic_get_descriptor_request, h]
  · intro producer hp
    constructor
    · intro hempty
      simp [handle_generic_get_descriptor_request, hp, hempty]
    · intro hne
      refine ⟨?_, ?_, ?_⟩
      · simp [handle_generic_get_descriptor_request, hp, List.isEmpty_iff, hne]
      · rw [List.length_take]
        omega
      · exact ⟨(resolveProducer producer request.value_low).drop
            (min request.length (resolveProducer producer request.value_low).length),
          List.take_append_drop _ _⟩
  · intro f i
    rfl

/-- A concrete GET_DESCRIPTOR request: descriptor type 3, index 1, with
a requested length of 2 (shorter than the 3-byte descriptor). -/
def chainedDescriptorReq : USBControlRequest :=
  ⟨USBDirection_IN, 0, 0, 6, 769, 0, 2, []⟩

/-- The concrete device with a chained producer registered for descriptor
type 3: a generator that yields a byte-producer parameterized by index. -/
def stDesc : DeviceState :=
  { st0 with descriptors :=
      [(3, DescriptorProducer.gen fun i => DescriptorProducer.bytes [i, 7, 9])] }

/-- Claim C7 witness: the chained producer resolves to `[1, 7, 9]` for
index 1 and the reply is truncated to the 2 requested bytes. -/
theorem c7_witness :
    handle_generic_get_descriptor_request stDesc chainedDescriptorReq =
      [BackendOp.reply [1, 7]] := by
  have h := ((c7_generic_get_descriptor stDesc chainedDescriptorReq).2.1
      (DescriptorProducer.gen fun i => DescriptorProducer.bytes [i, 7, 9])
      rfl).2 (by decide)
  exact h.1

/-- When no level's registry resolves the request, the hierarchy walk
reports it unclaimed. -/
theorem superHandleRequest_eq_none (r : USBControlRequest) (st : DeviceState) :
    ∀ levels : List (List HandlerBinding),
      (∀ bs ∈ levels, resolve bs r = none) →
      superHandleRequest levels r st = none := by
  intro levels
  induction levels with
  | nil => intro _; rfl
  | cons bs rest ih =>
    intro h
    have hb := h bs (List.mem_cons_self _ _)
    have ht := ih fun x hx => h x (List.mem_cons_of_mem _ hx)
    simp [superHandleRequest, hb, ht]

/-- A concrete vendor request (type 2) number 0x42 that no registry in the
fixtures handles. -/
def unhandledReq : USBControlRequest :=
  ⟨USBDirection_IN, 2, 0, 0x42, 0, 0, 8, []⟩

/-- The concrete device after `unhandledReq` has already been seen once:
its signature is already in the suggestion set. -/
def stSuggested : DeviceState :=
  { st0 with
    suggested_requests := [request_signature unhandledReq]
    suggested_request_metadata := [(request_signature unhandledReq, (8, []))] }

/-- Claim C4 counterexample: a control request that no handler claims, but
whose signature is already in the suggestion set (it was unhandled once
before), adds zero new suggestion records — the Python suggestion store is
a set keyed by signature, so the claimed "exactly one new suggestion
record" fails on repeats: the record count stays at 1. -/
theorem c4_counterexample :
    superHandleRequest [] unhandledReq stSuggested = none ∧
    (handle_request [] stSuggested unhandledReq).1.suggested_requests.length =
      stSuggested.suggested_requests.length ∧
    stSuggested.suggested_requests.length = 1 := by
  refine ⟨rfl, ?_, rfl⟩
  decide

/-- Claim C4 (amended): for every control request that no handler at any
level claims, `handle_request` performs exactly one stall on endpoint 0
and records the request's signature in the suggestion set — the set
becomes the old set with the signature inserted, so exactly one new record
appears precisely when the signature was not already recorded (a repeat
only refreshes its metadata). -/
theorem c4_unhandled_request_stalls_and_records
    (levels : List (List HandlerBinding)) (st : DeviceState)
    (r : USBControlRequest)
    (h : ∀ bs ∈ levels, resolve bs r = none) :
    handle_request levels st r =
      (add_request_suggestion st r,
       [BackendOp.stallEndpoint 0 USBDirection_OUT], false) ∧
    ((handle_request levels st r).2.1.filter isEp0Stall).length = 1 ∧
    (add_request_suggestion st r).suggested_requests =
      (if request_signature r ∈ st.suggested_requests then st.suggested_requests
       else request_signature r :: st.suggested_requests) ∧
    (request_signature r ∉ st.suggested_requests →
      (add_request_suggestion st r).suggested_requests.length =
        st.suggested_requests.length + 1) := by
  have hs := superHandleRequest_eq_none r st levels h
  have hmain : handle_request levels st r =
      (add_request_suggestion st r,
       [BackendOp.stallEndpoint 0 USBDirection_OUT], false) := by
    unfold handle_request
    rw [hs]
  refine ⟨hmain, ?_, rfl, ?_⟩
  · rw [hmain]
    rfl
  · intro hmem
    simp [add_request_suggestion, hmem]

/-- Claim C4 witness: the fresh concrete device, with an empty hierarchy,
stalls the unhandled vendor request once and its suggestion set grows from
zero records to exactly one. -/
theorem c4_witness :
    handle_request [] st0 unhandledReq =
      (add_request_suggestion st0 unhandledReq,
       [BackendOp.stallEndpoint 0 USBDirection_OUT], false) ∧
    (add_request_suggestion st0 unhandledReq).suggested_requests.length = 1 := by
  have h := c4_unhandled_request_stalls_and_records [] st0 unhandledReq (by simp)
  exact ⟨h.1, (h.2.2.2 (by decide)).trans (by decide)⟩

/-- The chunking loop on an empty buffer emits nothing, whatever the fuel. -/
theorem sendPacketsLoop_nil (packet_size : Nat) :
    ∀ fuel, sendPacketsLoop packet_size fuel [] = [] := by
  intro fuel
  cases fuel <;> rfl

/-- With enough fuel, the chunks concatenate back to the original data. -/
theorem sendPacketsLoop_join (packet_size : Nat) (hps : 0 < packet_size) :
    ∀ fuel data, data.length ≤ fuel →
      (sendPacketsLoop packet_size fuel data).flatten = data := by
  intro fuel
  induction fuel with
  | zero =>
    intro data hd
    cases data with
    | nil => rfl
    | cons b rest => simp at hd
  | succ fuel ih =>
    intro data hd
    cases data with
    | nil => rfl
    | cons b rest =>
      have hc : (b :: rest).length = rest.length + 1 := List.length_cons b rest
      have hdrop : ((b :: rest).drop packet_size).length ≤ fuel := by
        rw [List.length_drop]
        omega
      have hgoal : sendPacketsLoop packet_size (fuel + 1) (b :: rest) =
          (b :: rest).take packet_size ::
            sendPacketsLoop packet_size fuel ((b :: rest).drop packet_size) := rfl
      rw [hgoal, List.flatten_cons, ih _ hdrop]
      exact List.take_append_drop _ _

/-- Every chunk the loop emits has at most `packet_size` bytes. -/
theorem sendPacketsLoop_le (packet_size : Nat) :
    ∀ fuel data p, p ∈ sendPacketsLoop packet_size fuel data →
      p.length ≤ packet_size := by
  intro fuel
  induction fuel with
  | zero =>
    intro data p hp
    cases data with
    | nil => simp [sendPacketsLoop] at hp
    | cons b rest => simp [sendPacketsLoop] at hp
  | succ fuel ih =>
    intro data p hp
    cases data with
    | nil => simp [sendPacketsLoop] at hp
    | cons b rest =>
      have hgoal : sendPacketsLoop packet_size (fuel + 1) (b :: rest) =
          (b :: rest).take packet_size ::
            sendPacketsLoop packet_size fuel ((b :: rest).drop packet_size) := rfl
      rw [hgoal] at hp
      rcases List.mem_cons.mp hp with h | h
      · subst h
        rw [List.length_take]
        omega
      · exact ih _ _ h

/-- With enough fuel, a non-empty buffer is emitted as
`(L - 1) / packet_size + 1` chunks (the ceiling of `L / packet_size`). -/
theorem sendPacketsLoop_length (packet_size : Nat) (hps : 0 < packet_size) :
    ∀ fuel data, data ≠ [] → data.length ≤ fuel →
      (sendPacketsLoop packet_size fuel data).length =
        (data.length - 1) / packet_size + 1 := by
  intro fuel
  induction fuel with
  | zero =>
    intro data hne hd
    cases data with
    | nil => exact absurd rfl hne
    | cons b rest => simp at hd
  | succ fuel ih =>
    intro data hne hd
    cases data with
    | nil => exact absurd rfl hne
    | cons b rest =>
      have hc : (b :: rest).length = rest.length + 1 := List.length_cons b rest
      have hgoal : sendPacketsLoop packet_size (fuel + 1) (b :: rest) =
          (b :: rest).take packet_size ::
            sendPacketsLoop packet_size fuel ((b :: rest).drop packet_size) := rfl
      by_cases hlen : (b :: rest).length ≤ packet_size
      · have hdrop : (b :: rest).drop packet_size = [] :=
          List.drop_eq_nil_of_le hlen
        have hdiv : ((b :: rest).length - 1) / packet_size = 0 := by
          apply Nat.div_eq_of_lt
          omega
        rw [hgoal, hdrop, sendPacketsLoop_nil, List.length_cons,
          List.length_nil, hdiv]
      · push_neg at hlen
        have hne2 : (b :: rest).drop packet_size ≠ [] := by
          apply List.ne_nil_of_length_pos
          rw [List.length_drop]
          omega
        have hle2 : ((b :: rest).drop packet_size).length ≤ fuel := by
          rw [List.length_drop]
          omega
        have ihh := ih _ hne2 hle2
        have harith : ((b :: rest).length - 1) / packet_size =
            ((b :: rest).length - packet_size - 1) / packet_size + 1 := by
          have h1 : (b :: rest).length - 1 =
              ((b :: rest).length - packet_size - 1) + packet_size := by omega
          rw [h1, Nat.add_div_right _ hps]
        rw [hgoal, List.length_cons, ihh, List.length_drop, harith]

/-- Claim C5: `_send_in_packets` on endpoint N submits, for a non-empty
payload of length L and packet size P > 0, exactly `(L + P - 1) / P`
(the ceiling of L / P) packets, each at most P bytes, concatenating in
order to the payload; an empty payload is submitted as exactly one
zero-length packet. -/
theorem c5_send_in_packets_chunking (endpoint_number : Nat) (data : List Nat)
    (packet_size : Nat) (blocking : Bool) (hps : 0 < packet_size) :
    (data = [] → send_in_packets endpoint_number data packet_size blocking =
      [BackendOp.sendOnEndpoint endpoint_number [] blocking]) ∧
    (data ≠ [] →
      send_in_packets endpoint_number data packet_size blocking =
        (sendPacketsLoop packet_size data.length data).map
          (fun packet => BackendOp.sendOnEndpoint endpoint_number packet blocking) ∧
      (sendPacketsLoop packet_size data.length data).length =
        (data.length + packet_size - 1) / packet_size ∧
      (∀ p ∈ sendPacketsLoop packet_size data.length data,
        p.length ≤ packet_size) ∧
      (sendPacketsLoop packet_size data.length data).flatten = data) := by
  constructor
  · intro h
    subst h
    rfl
  · intro hne
    have hpos : 0 < data.length := List.length_pos.mpr hne
    refine ⟨?_, ?_, ?_, ?_⟩
    · simp [send_in_packets, List.isEmpty_iff, hne]
    · rw [sendPacketsLoop_length packet_size hps data.length data hne
        (Nat.le_refl _)]
      have h1 : data.length + packet_size - 1 =
          (data.length - 1) + packet_size := by omega
      rw [h1, Nat.add_div_right _ hps]
    · intro p hp
      exact sendPacketsLoop_le packet_size data.length data p hp
    · exact sendPacketsLoop_join packet_size hps data.length data (Nat.le_refl _)

/-- Claim C5 witness: a 3-byte payload with packet size 2 goes out as two
packets, `[1, 2]` then `[3]`; an empty payload goes out as one zero-length
packet. -/
theorem c5_witness :
    send_in_packets 1 [1, 2, 3] 2 false =
      [BackendOp.sendOnEndpoint 1 [1, 2] false,
       BackendOp.sendOnEndpoint 1 [3] false] ∧
    send_in_packets 1 [] 2 false = [BackendOp.sendOnEndpoint 1 [] false] := by
  have h := c5_send_in_packets_chunking 1 [1, 2, 3] 2 false (by decide)
  have h0 := c5_send_in_packets_chunking 1 [] 2 false (by decide)
  constructor
  · rw [(h.2 (by decide)).1]
    rfl
  · exact h0.1 rfl

end Facedancer
